import Mathlib

/-!
Shallow embedding of `src/pybamm/discretisations/base_mesh.py`.

The Python file defines a single class `BaseMesh` whose constructor
`__init__(self, param, target_npts=10, tsteps=100, tend=1)` stores
`self.time = np.linspace(0, tend, tsteps)` and nothing else, and four
`@property` accessors (`negative_electrode`, `separator`,
`positive_electrode`, `whole_cell`) that return the private backing
attributes `self._negative_electrode`, `self._separator`,
`self._positive_electrode`, `self._whole_cell`.

Real numbers are modelled as rationals (exact arithmetic).  Fallible
operations return `Except String`, with the error message standing for the
Python exception raised.  A Python attribute that may be unset is modelled
as an `Option`; reading an unset attribute is an `AttributeError`.
-/

/-- Message of the `ValueError` that `numpy.linspace` raises when the
requested number of samples is negative. -/
def negSamplesMsg : String :=
  "ValueError: Number of samples must be non-negative."

/-- Message of the `AttributeError` raised when a backing attribute that was
never assigned is read. -/
def attributeErrorMsg : String :=
  "AttributeError: object has no attribute"

/-- Message of the `AttributeError` raised when assigning through a
`@property` that has no setter. -/
def cantSetAttributeMsg : String :=
  "AttributeError: can't set attribute"

/-- Embedding of `numpy.linspace(start, stop, num)` with the default
`endpoint=True`, over exact rationals.  Following numpy's implementation:
a negative `num` raises `ValueError`; otherwise the result has
`num` entries `start + i * step` where `step = (stop - start) / (num - 1)`
when `num > 1` and `step = stop - start` otherwise, and for `num > 1` the
last entry is overwritten with `stop` exactly. -/
def linspace (start stop : ℚ) (num : ℤ) : Except String (List ℚ) :=
  if num < 0 then
    Except.error negSamplesMsg
  else
    let n : Nat := num.toNat
    let delta : ℚ := stop - start
    let step : ℚ := if 1 < num then delta / ((num : ℚ) - 1) else delta
    let y : List ℚ := (List.range n).map (fun i : Nat => start + (i : ℚ) * step)
    let y : List ℚ := if 1 < num then y.set (n - 1) stop else y
    Except.ok y

/-- Embedding of the state of a `BaseMesh` object.  `time` is the attribute
assigned in `__init__`; the four `Option` fields are the private backing
attributes read by the properties, which `__init__` never assigns (`none`
models "attribute not set").  `σ` is the (unspecified) type of subdomain
objects; `param` belongs to an equally unspecified type. -/
structure BaseMesh (σ : Type) where
  time : List ℚ
  _negative_electrode : Option σ
  _separator : Option σ
  _positive_electrode : Option σ
  _whole_cell : Option σ
deriving DecidableEq, Repr

/-- Embedding of `BaseMesh.__init__(self, param, target_npts, tsteps, tend)`:
it assigns `self.time = np.linspace(0, tend, tsteps)` and nothing else, so
every backing subdomain attribute is left unset.  `param` and `target_npts`
are received but never used, exactly as in the source. -/
def BaseMesh.init (π σ : Type) (param : π) (target_npts : ℤ)
    (tsteps : ℤ) (tend : ℚ) : Except String (BaseMesh σ) :=
  match linspace 0 tend tsteps with
  | Except.error e => Except.error e
  | Except.ok t =>
      Except.ok { time := t
                  _negative_electrode := none
                  _separator := none
                  _positive_electrode := none
                  _whole_cell := none }

/-- Embedding of calling `BaseMesh(param)` with the defaults of the Python
signature `def __init__(self, param, target_npts=10, tsteps=100, tend=1)`. -/
def BaseMesh.initDefault (π σ : Type) (param : π) :
    Except String (BaseMesh σ) :=
  BaseMesh.init π σ param 10 100 1

/-- The `negative_electrode` property: `return self._negative_electrode`,
an `AttributeError` when that backing attribute was never assigned. -/
def BaseMesh.negative_electrode {σ : Type} (self : BaseMesh σ) :
    Except String σ :=
  match self._negative_electrode with
  | some v => Except.ok v
  | none => Except.error attributeErrorMsg

/-- The `separator` property: `return self._separator`. -/
def BaseMesh.separator {σ : Type} (self : BaseMesh σ) : Except String σ :=
  match self._separator with
  | some v => Except.ok v
  | none => Except.error attributeErrorMsg

/-- The `positive_electrode` property: `return self._positive_electrode`. -/
def BaseMesh.positive_electrode {σ : Type} (self : BaseMesh σ) :
    Except String σ :=
  match self._positive_electrode with
  | some v => Except.ok v
  | none => Except.error attributeErrorMsg

/-- The `whole_cell` property: `return self._whole_cell`. -/
def BaseMesh.whole_cell {σ : Type} (self : BaseMesh σ) : Except String σ :=
  match self._whole_cell with
  | some v => Except.ok v
  | none => Except.error attributeErrorMsg

/-- A value produced by reading an attribute of a `BaseMesh`: either the
time sequence or a subdomain object. -/
inductive MeshValue (σ : Type) where
  | timeVal (t : List ℚ)
  | sub (v : σ)
deriving DecidableEq, Repr

/-- The operations of the public interface of `BaseMesh`: reading the
`time` attribute, reading one of the four subdomain properties, or
assigning through one of the four subdomain properties (Python rejects the
assignment because the properties define no setter). -/
inductive MeshOp (σ : Type) where
  | readTime
  | readNegativeElectrode
  | readSeparator
  | readPositiveElectrode
  | readWholeCell
  | assignNegativeElectrode (v : σ)
  | assignSeparator (v : σ)
  | assignPositiveElectrode (v : σ)
  | assignWholeCell (v : σ)
deriving DecidableEq, Repr

/-- Running one public-interface operation on a mesh: the resulting state
together with the outcome of the operation.  Reads go through the
properties; assignments through a setter-less `@property` raise
`AttributeError` and leave the object untouched. -/
def MeshOp.run {σ : Type} (op : MeshOp σ) (m : BaseMesh σ) :
    BaseMesh σ × Except String (MeshValue σ) :=
  match op with
  | .readTime => (m, Except.ok (MeshValue.timeVal m.time))
  | .readNegativeElectrode => (m, m.negative_electrode.map MeshValue.sub)
  | .readSeparator => (m, m.separator.map MeshValue.sub)
  | .readPositiveElectrode => (m, m.positive_electrode.map MeshValue.sub)
  | .readWholeCell => (m, m.whole_cell.map MeshValue.sub)
  | .assignNegativeElectrode _ => (m, Except.error cantSetAttributeMsg)
  | .assignSeparator _ => (m, Except.error cantSetAttributeMsg)
  | .assignPositiveElectrode _ => (m, Except.error cantSetAttributeMsg)
  | .assignWholeCell _ => (m, Except.error cantSetAttributeMsg)

/-! ### Characterisation of `linspace` -/

/-- Setting position `i` of a list to the value it already holds is the
identity. -/
theorem set_self_of_get {α : Type} :
    ∀ (l : List α) (i : Nat) (v : α) (h : i < l.length),
      l.get ⟨i, h⟩ = v → l.set i v = l := by
  intro l
  induction l with
  | nil => intro i v h; simp at h
  | cons a l ih =>
      intro i v h hv
      cases i with
      | zero => simp at hv; simp [hv]
      | succ j =>
          simp only [List.length_cons, Nat.succ_lt_succ_iff] at h
          simp only [List.get] at hv
          simp [List.set, ih j v h hv]

/-- For `num ≥ 2`, `linspace start stop num` succeeds with the exact
arithmetic-progression list: the final `y[-1] = stop` overwrite is a no-op
over the rationals. -/
theorem linspace_eq_of_two_le (start stop : ℚ) (num : ℤ) (h : 2 ≤ num) :
    linspace start stop num =
      Except.ok ((List.range num.toNat).map
        (fun i : Nat => start + (i : ℚ) * ((stop - start) / ((num : ℚ) - 1)))) := by
  have h0 : ¬ num < 0 := by omega
  have h1 : 1 < num := h
  have hq2 : (2 : ℚ) ≤ (num : ℚ) := by exact_mod_cast h
  have hne : (num : ℚ) - 1 ≠ 0 := by linarith
  have hn : 1 ≤ num.toNat := by omega
  have hcast : ((num.toNat : ℕ) : ℚ) = (num : ℚ) := by
    have := Int.toNat_of_nonneg (a := num) (by omega)
    exact_mod_cast congrArg (fun z : ℤ => (z : ℚ)) this
  unfold linspace
  simp only [h0, if_false, h1, if_true, ite_true, ite_false]
  congr 1
  have hlen : num.toNat - 1 <
      ((List.range num.toNat).map
        (fun i : Nat => start + (i : ℚ) * ((stop - start) / ((num : ℚ) - 1)))).length := by
    simp only [List.length_map, List.length_range]; omega
  apply set_self_of_get _ _ _ hlen
  simp only [List.get_eq_getElem, List.getElem_map, List.getElem_range]
  have hcast2 : ((num.toNat - 1 : ℕ) : ℚ) = (num : ℚ) - 1 := by
    rw [Nat.cast_sub hn, hcast]; norm_num
  rw [hcast2]
  field_simp

/-- `linspace start stop 1` is the one-element list `[start]`. -/
theorem linspace_one (start stop : ℚ) :
    linspace start stop 1 = Except.ok [start] := by
  have hr : List.range 1 = [0] := rfl
  simp [linspace, hr]

/-- `linspace start stop 0` is the empty list. -/
theorem linspace_zero (start stop : ℚ) :
    linspace start stop 0 = Except.ok [] := by
  simp [linspace]

/-- A negative sample count makes `linspace` fail with numpy's
`ValueError`. -/
theorem linspace_neg (start stop : ℚ) (num : ℤ) (h : num < 0) :
    linspace start stop num = Except.error negSamplesMsg := by
  simp [linspace, h]

/-- For `tsteps ≥ 2`, `__init__` succeeds and stores the literal
arithmetic progression as `time`, with every subdomain attribute unset. -/
theorem init_eq_of_two_le (π σ : Type) (param : π) (target_npts tsteps : ℤ)
    (tend : ℚ) (h : 2 ≤ tsteps) :
    BaseMesh.init π σ param target_npts tsteps tend =
      Except.ok { time := (List.range tsteps.toNat).map
                    (fun i : Nat => 0 + (i : ℚ) * ((tend - 0) / ((tsteps : ℚ) - 1)))
                  _negative_electrode := none
                  _separator := none
                  _positive_electrode := none
                  _whole_cell := none } := by
  unfold BaseMesh.init
  rw [linspace_eq_of_two_le 0 tend tsteps h]

/-- C1: for every `tsteps ≥ 2` and every `tend`, constructing a `BaseMesh`
yields a time sequence with exactly `tsteps` entries where entry `i` equals
`i * tend / (tsteps - 1)`; in particular for `tsteps = 100`, `tend = 1` the
sequence has 100 entries, first entry `0`, last entry `1`, and uniform
spacing `1/99` between consecutive entries. -/
theorem time_sequence_evenly_spaced :
    (∀ (tsteps : ℤ), 2 ≤ tsteps → ∀ (tend : ℚ) (π σ : Type) (param : π)
        (target_npts : ℤ),
      ∃ m : BaseMesh σ,
        BaseMesh.init π σ param target_npts tsteps tend = Except.ok m ∧
        m.time.length = tsteps.toNat ∧
        ∀ i : Fin m.time.length,
          m.time.get i = ((i : ℕ) : ℚ) * tend / ((tsteps : ℚ) - 1)) ∧
    (∃ m : BaseMesh Unit,
      BaseMesh.init Unit Unit () 10 100 1 = Except.ok m ∧
      m.time.length = 100 ∧
      (∀ h0 : 0 < m.time.length, m.time.get ⟨0, h0⟩ = 0) ∧
      (∀ h99 : 99 < m.time.length, m.time.get ⟨99, h99⟩ = 1) ∧
      (∀ i : ℕ, ∀ hi : i + 1 < m.time.length,
        m.time.get ⟨i + 1, hi⟩ - m.time.get ⟨i, Nat.lt_of_succ_lt hi⟩
          = 1 / 99)) := by
  have hgen : ∀ (tsteps : ℤ), 2 ≤ tsteps → ∀ (tend : ℚ) (π σ : Type)
      (param : π) (target_npts : ℤ),
      ∃ m : BaseMesh σ,
        BaseMesh.init π σ param target_npts tsteps tend = Except.ok m ∧
        m.time.length = tsteps.toNat ∧
        ∀ i : Fin m.time.length,
          m.time.get i = ((i : ℕ) : ℚ) * tend / ((tsteps : ℚ) - 1) := by
    intro tsteps h tend π σ p t
    refine ⟨_, init_eq_of_two_le π σ p t tsteps tend h, ?_, ?_⟩
    · simp
    · intro i
      obtain ⟨iv, hiv⟩ := i
      simp only [List.get_eq_getElem, List.getElem_map, List.getElem_range]
      ring
  refine ⟨hgen, ?_⟩
  obtain ⟨m, hm, hlen, hget⟩ := hgen 100 (by decide) 1 Unit Unit () 10
  refine ⟨m, hm, by rw [hlen]; rfl, ?_, ?_, ?_⟩
  · intro h0
    have h := hget ⟨0, h0⟩
    simpa using h
  · intro h99
    have h := hget ⟨99, h99⟩
    rw [h]
    norm_num
  · intro i hi
    have h1 := hget ⟨i + 1, hi⟩
    have h2 := hget ⟨i, Nat.lt_of_succ_lt hi⟩
    rw [h1, h2]
    push_cast
    ring

/-- Witness for C1 at `tsteps = 3`, `tend = 2`. -/
theorem time_sequence_evenly_spaced_witness :
    (2 : ℤ) ≤ 3 ∧
    (∃ m : BaseMesh Unit,
      BaseMesh.init Unit Unit () 7 3 2 = Except.ok m ∧
      m.time.length = (3 : ℤ).toNat ∧
      ∀ i : Fin m.time.length,
        m.time.get i = ((i : ℕ) : ℚ) * 2 / (((3 : ℤ) : ℚ) - 1)) :=
  ⟨by decide, time_sequence_evenly_spaced.1 3 (by decide) 2 Unit Unit () 7⟩

/-- C6: for `tsteps = 1` and any `tend`, the constructed time sequence is
the single entry `0`. -/
theorem tsteps_one_time_is_single_zero :
    ∀ (tend : ℚ) (π σ : Type) (param : π) (target_npts : ℤ),
      ∃ m : BaseMesh σ,
        BaseMesh.init π σ param target_npts 1 tend = Except.ok m ∧
        m.time = [0] := by
  intro tend π σ p t
  refine ⟨{ time := [0]
            _negative_electrode := none
            _separator := none
            _positive_electrode := none
            _whole_cell := none }, ?_, rfl⟩
  unfold BaseMesh.init
  rw [linspace_one]

/-- C9: for `tsteps = 0` and any `tend`, construction succeeds, the time
sequence is empty, and it contains neither `0` nor `tend`. -/
theorem tsteps_zero_time_is_empty :
    ∀ (tend : ℚ) (π σ : Type) (param : π) (target_npts : ℤ),
      ∃ m : BaseMesh σ,
        BaseMesh.init π σ param target_npts 0 tend = Except.ok m ∧
        m.time = [] ∧ (0 : ℚ) ∉ m.time ∧ tend ∉ m.time := by
  intro tend π σ p t
  refine ⟨{ time := []
            _negative_electrode := none
            _separator := none
            _positive_electrode := none
            _whole_cell := none }, ?_, rfl, ?_, ?_⟩
  · unfold BaseMesh.init
    rw [linspace_zero]
  · simp
  · simp

/-! ### Claims about the constructor and the accessors -/

/-- A concrete mesh over `ℕ` subdomains as `__init__` builds it with
`tsteps = 2`, `tend = 1`: time `[0, 1]`, every backing attribute unset. -/
def freshMeshNat : BaseMesh ℕ :=
  { time := [0, 1]
    _negative_electrode := none
    _separator := none
    _positive_electrode := none
    _whole_cell := none }

/-- A concrete mesh over `ℕ` subdomains with every backing attribute
assigned, for exercising the read-through of the accessors. -/
def fullMeshNat : BaseMesh ℕ :=
  { time := []
    _negative_electrode := some 1
    _separator := some 2
    _positive_electrode := some 3
    _whole_cell := some 4 }

/-- `__init__` with `tsteps = 2`, `tend = 1` over `ℕ` subdomains produces
exactly `freshMeshNat`. -/
theorem init_two_one_eq_fresh :
    BaseMesh.init ℕ ℕ 0 10 2 1 = Except.ok freshMeshNat := by
  have hr : List.range 2 = [0, 1] := rfl
  have hlin : linspace 0 1 2 = Except.ok [0, 1] := by simp [linspace, hr]
  unfold BaseMesh.init
  rw [hlin]
  rfl

/-- C2 (counterexample to the claim as stated): on the mesh `__init__`
builds, `negative_electrode` raises `AttributeError` instead of returning a
subdomain object stored at initialization time — there is no error-free
read-through on a freshly constructed mesh. -/
theorem accessor_on_fresh_mesh_not_ok :
    BaseMesh.init ℕ ℕ 0 10 2 1 = Except.ok freshMeshNat ∧
    freshMeshNat.negative_electrode = Except.error attributeErrorMsg ∧
    (¬ ∃ v : ℕ, freshMeshNat.negative_electrode = Except.ok v) := by
  refine ⟨init_two_one_eq_fresh, rfl, ?_⟩
  rintro ⟨v, hv⟩
  simp [freshMeshNat, BaseMesh.negative_electrode] at hv

/-- C2 (amended): each of the four accessors is an identity read-through of
its backing attribute whenever that attribute is set; `__init__` itself
stores no subdomain, so on a mesh as constructed the backing attributes are
all unset. -/
theorem accessors_read_through {σ : Type} (m : BaseMesh σ) (v : σ) :
    (m._negative_electrode = some v → m.negative_electrode = Except.ok v) ∧
    (m._separator = some v → m.separator = Except.ok v) ∧
    (m._positive_electrode = some v → m.positive_electrode = Except.ok v) ∧
    (m._whole_cell = some v → m.whole_cell = Except.ok v) ∧
    (∀ (π : Type) (param : π) (target_npts tsteps : ℤ) (tend : ℚ)
        (m2 : BaseMesh σ),
      BaseMesh.init π σ param target_npts tsteps tend = Except.ok m2 →
      m2._negative_electrode = none ∧ m2._separator = none ∧
      m2._positive_electrode = none ∧ m2._whole_cell = none) := by
  refine ⟨?_, ?_, ?_, ?_, ?_⟩
  · intro h; simp [BaseMesh.negative_electrode, h]
  · intro h; simp [BaseMesh.separator, h]
  · intro h; simp [BaseMesh.positive_electrode, h]
  · intro h; simp [BaseMesh.whole_cell, h]
  · intro π p t ts te m2 h
    unfold BaseMesh.init at h
    cases hl : linspace 0 te ts with
    | error e => rw [hl] at h; cases h
    | ok l =>
        rw [hl] at h
        cases h
        exact ⟨rfl, rfl, rfl, rfl⟩

/-- Witness for the amended C2: read-through on a mesh with all backing
attributes set, and unset backing attributes on a constructed mesh. -/
theorem accessors_read_through_witness :
    (fullMeshNat._negative_electrode = some 1 ∧
      fullMeshNat.negative_electrode = Except.ok 1) ∧
    (fullMeshNat._separator = some 2 ∧
      fullMeshNat.separator = Except.ok 2) ∧
    (fullMeshNat._positive_electrode = some 3 ∧
      fullMeshNat.positive_electrode = Except.ok 3) ∧
    (fullMeshNat._whole_cell = some 4 ∧
      fullMeshNat.whole_cell = Except.ok 4) ∧
    (BaseMesh.init ℕ ℕ 0 10 2 1 = Except.ok freshMeshNat ∧
      freshMeshNat._negative_electrode = none ∧
      freshMeshNat._separator = none ∧
      freshMeshNat._positive_electrode = none ∧
      freshMeshNat._whole_cell = none) :=
  ⟨⟨rfl, (accessors_read_through fullMeshNat 1).1 rfl⟩,
   ⟨rfl, (accessors_read_through fullMeshNat 2).2.1 rfl⟩,
   ⟨rfl, (accessors_read_through fullMeshNat 3).2.2.1 rfl⟩,
   ⟨rfl, (accessors_read_through fullMeshNat 4).2.2.2.1 rfl⟩,
   init_two_one_eq_fresh,
   (accessors_read_through freshMeshNat 0).2.2.2.2 ℕ 0 10 2 1 freshMeshNat
     init_two_one_eq_fresh⟩

/-- C3: no public-interface operation mutates a constructed mesh: every
operation returns the state unchanged, and assigning through any of the
four setter-less subdomain properties is rejected with `AttributeError`. -/
theorem mesh_never_mutated {σ : Type} :
    (∀ (op : MeshOp σ) (m : BaseMesh σ), (op.run m).1 = m) ∧
    (∀ (v : σ) (m : BaseMesh σ),
      (MeshOp.assignNegativeElectrode v).run m
        = (m, Except.error cantSetAttributeMsg) ∧
      (MeshOp.assignSeparator v).run m
        = (m, Except.error cantSetAttributeMsg) ∧
      (MeshOp.assignPositiveElectrode v).run m
        = (m, Except.error cantSetAttributeMsg) ∧
      (MeshOp.assignWholeCell v).run m
        = (m, Except.error cantSetAttributeMsg)) := by
  constructor
  · intro op m
    cases op <;> rfl
  · intro v m
    exact ⟨rfl, rfl, rfl, rfl⟩

/-- C4: the constructed state depends only on `tsteps` and `tend` —
`param` and `target_npts` (of arbitrary, possibly different, types and
values) have no influence on the result. -/
theorem init_independent_of_param_and_target :
    ∀ (π1 π2 σ : Type) (p1 : π1) (p2 : π2) (t1 t2 : ℤ) (tsteps : ℤ)
        (tend : ℚ),
      BaseMesh.init π1 σ p1 t1 tsteps tend
        = BaseMesh.init π2 σ p2 t2 tsteps tend := by
  intro π1 π2 σ p1 p2 t1 t2 tsteps tend
  rfl

/-- C5: for a negative `tsteps`, construction fails with exactly the
`ValueError` that `linspace` raises — the constructor adds no handling —
and no mesh object results. -/
theorem init_negative_tsteps_error :
    ∀ (π σ : Type) (param : π) (target_npts tsteps : ℤ) (tend : ℚ),
      tsteps < 0 →
      linspace 0 tend tsteps = Except.error negSamplesMsg ∧
      BaseMesh.init π σ param target_npts tsteps tend
        = Except.error negSamplesMsg ∧
      ∀ m : BaseMesh σ,
        BaseMesh.init π σ param target_npts tsteps tend ≠ Except.ok m := by
  intro π σ p t ts te h
  have hl := linspace_neg 0 te ts h
  refine ⟨hl, ?_, ?_⟩
  · unfold BaseMesh.init
    rw [hl]
  · intro m hm
    unfold BaseMesh.init at hm
    rw [hl] at hm
    cases hm

/-- Witness for C5 at `tsteps = -1`. -/
theorem init_negative_tsteps_error_witness :
    (-1 : ℤ) < 0 ∧
    (linspace 0 1 (-1) = Except.error negSamplesMsg ∧
     BaseMesh.init ℕ ℕ 0 10 (-1) 1 = Except.error negSamplesMsg ∧
     ∀ m : BaseMesh ℕ, BaseMesh.init ℕ ℕ 0 10 (-1) 1 ≠ Except.ok m) :=
  ⟨by decide, init_negative_tsteps_error ℕ ℕ 0 10 (-1) 1 (by decide)⟩

/-- C7: the defaults of the `__init__` signature are `target_npts = 10`,
`tsteps = 100`, `tend = 1`: calling with all defaults yields a state
identical to passing those values explicitly. -/
theorem init_defaults :
    ∀ (π σ : Type) (param : π),
      BaseMesh.initDefault π σ param = BaseMesh.init π σ param 10 100 1 ∧
      ∀ m1 m2 : BaseMesh σ,
        BaseMesh.initDefault π σ param = Except.ok m1 →
        BaseMesh.init π σ param 10 100 1 = Except.ok m2 → m1 = m2 := by
  intro π σ p
  refine ⟨rfl, ?_⟩
  intro m1 m2 h1 h2
  unfold BaseMesh.initDefault at h1
  rw [h1] at h2
  injection h2

/-- The mesh built by the all-defaults call over `ℕ` subdomains. -/
def meshDefaultNat : BaseMesh ℕ :=
  { time := (List.range (100 : ℤ).toNat).map
      (fun i : Nat => 0 + (i : ℚ) * ((1 - 0) / (((100 : ℤ) : ℚ) - 1)))
    _negative_electrode := none
    _separator := none
    _positive_electrode := none
    _whole_cell := none }

/-- The all-defaults call evaluates to `meshDefaultNat`. -/
theorem initDefault_eq_meshDefault :
    BaseMesh.initDefault ℕ ℕ 0 = Except.ok meshDefaultNat :=
  init_eq_of_two_le ℕ ℕ 0 10 100 1 (by decide)

/-- The explicit call with the default values evaluates to
`meshDefaultNat` as well. -/
theorem init_explicit_eq_meshDefault :
    BaseMesh.init ℕ ℕ 0 10 100 1 = Except.ok meshDefaultNat :=
  init_eq_of_two_le ℕ ℕ 0 10 100 1 (by decide)

/-- Witness for C7 on concrete types and parameter. -/
theorem init_defaults_witness :
    BaseMesh.initDefault ℕ ℕ 0 = Except.ok meshDefaultNat ∧
    BaseMesh.init ℕ ℕ 0 10 100 1 = Except.ok meshDefaultNat ∧
    meshDefaultNat = meshDefaultNat :=
  ⟨initDefault_eq_meshDefault, init_explicit_eq_meshDefault,
   (init_defaults ℕ ℕ 0).2 meshDefaultNat meshDefaultNat
     initDefault_eq_meshDefault init_explicit_eq_meshDefault⟩

/-- C8: on a mesh constructed by `__init__` alone, every one of the four
subdomain accessors fails with `AttributeError`, because `__init__` never
assigns the backing attributes. -/
theorem fresh_mesh_accessors_error :
    ∀ (π σ : Type) (param : π) (target_npts tsteps : ℤ) (tend : ℚ)
        (m : BaseMesh σ),
      BaseMesh.init π σ param target_npts tsteps tend = Except.ok m →
      m.negative_electrode = Except.error attributeErrorMsg ∧
      m.separator = Except.error attributeErrorMsg ∧
      m.positive_electrode = Except.error attributeErrorMsg ∧
      m.whole_cell = Except.error attributeErrorMsg := by
  intro π σ p t ts te m h
  unfold BaseMesh.init at h
  cases hl : linspace 0 te ts with
  | error e => rw [hl] at h; cases h
  | ok l =>
      rw [hl] at h
      cases h
      exact ⟨rfl, rfl, rfl, rfl⟩

/-- Witness for C8 on the concrete fresh mesh. -/
theorem fresh_mesh_accessors_error_witness :
    freshMeshNat.negative_electrode = Except.error attributeErrorMsg ∧
    freshMeshNat.separator = Except.error attributeErrorMsg ∧
    freshMeshNat.positive_electrode = Except.error attributeErrorMsg ∧
    freshMeshNat.whole_cell = Except.error attributeErrorMsg :=
  fresh_mesh_accessors_error ℕ ℕ 0 10 2 1 freshMeshNat init_two_one_eq_fresh

/-- C10: for `tsteps ≥ 0` and `tend ≥ 0` the constructed time sequence is
monotonically nondecreasing, and for `tend > 0` with `tsteps ≥ 2` it is
strictly increasing. -/
theorem time_sequence_monotone :
    ∀ (tsteps : ℤ) (tend : ℚ) (π σ : Type) (param : π) (target_npts : ℤ)
        (m : BaseMesh σ),
      0 ≤ tsteps → 0 ≤ tend →
      BaseMesh.init π σ param target_npts tsteps tend = Except.ok m →
      ((∀ i : ℕ, ∀ hi : i + 1 < m.time.length,
          m.time.get ⟨i, Nat.lt_of_succ_lt hi⟩ ≤ m.time.get ⟨i + 1, hi⟩) ∧
       (0 < tend → 2 ≤ tsteps →
         ∀ i : ℕ, ∀ hi : i + 1 < m.time.length,
           m.time.get ⟨i, Nat.lt_of_succ_lt hi⟩ < m.time.get ⟨i + 1, hi⟩)) := by
  intro ts te π σ p t m h0 hte h
  rcases (show ts = 0 ∨ ts = 1 ∨ 2 ≤ ts by omega) with h1 | h1 | h1
  · subst h1
    unfold BaseMesh.init at h
    rw [linspace_zero] at h
    cases h
    constructor
    · intro i hi
      simp at hi
    · intro _ _ i hi
      simp at hi
  · subst h1
    unfold BaseMesh.init at h
    rw [linspace_one] at h
    cases h
    constructor
    · intro i hi
      simp at hi
    · intro _ h2
      omega
  · rw [init_eq_of_two_le π σ p t ts te h1] at h
    cases h
    have hq2 : (2 : ℚ) ≤ (ts : ℚ) := by exact_mod_cast h1
    have hpos : (0 : ℚ) < (ts : ℚ) - 1 := by linarith
    constructor
    · intro i hi
      have hstep : 0 ≤ (te - 0) / ((ts : ℚ) - 1) :=
        div_nonneg (by linarith) (le_of_lt hpos)
      simp only [List.get_eq_getElem, List.getElem_map, List.getElem_range]
      push_cast
      nlinarith [hstep]
    · intro htpos h2 i hi
      have hstep : 0 < (te - 0) / ((ts : ℚ) - 1) :=
        div_pos (by linarith) hpos
      simp only [List.get_eq_getElem, List.getElem_map, List.getElem_range]
      push_cast
      nlinarith [hstep]

/-- The mesh built with `tsteps = 3`, `tend = 2` over `ℕ` subdomains. -/
def mesh32Nat : BaseMesh ℕ :=
  { time := (List.range (3 : ℤ).toNat).map
      (fun i : Nat => 0 + (i : ℚ) * ((2 - 0) / (((3 : ℤ) : ℚ) - 1)))
    _negative_electrode := none
    _separator := none
    _positive_electrode := none
    _whole_cell := none }

/-- `__init__` with `tsteps = 3`, `tend = 2` evaluates to `mesh32Nat`. -/
theorem init_three_two_eq :
    BaseMesh.init ℕ ℕ 0 10 3 2 = Except.ok mesh32Nat :=
  init_eq_of_two_le ℕ ℕ 0 10 3 2 (by decide)

/-- Witness for C10 at `tsteps = 3`, `tend = 2`. -/
theorem time_sequence_monotone_witness :
    (0 : ℤ) ≤ 3 ∧ (0 : ℚ) ≤ 2 ∧
    ((∀ i : ℕ, ∀ hi : i + 1 < mesh32Nat.time.length,
        mesh32Nat.time.get ⟨i, Nat.lt_of_succ_lt hi⟩
          ≤ mesh32Nat.time.get ⟨i + 1, hi⟩) ∧
     ((0 : ℚ) < 2 → (2 : ℤ) ≤ 3 →
       ∀ i : ℕ, ∀ hi : i + 1 < mesh32Nat.time.length,
         mesh32Nat.time.get ⟨i, Nat.lt_of_succ_lt hi⟩
           < mesh32Nat.time.get ⟨i + 1, hi⟩)) :=
  ⟨by decide, by norm_num,
   time_sequence_monotone 3 2 ℕ ℕ 0 10 mesh32Nat (by decide) (by norm_num)
     init_three_two_eq⟩
